import Mathlib

/-!
Shallow embedding of the interest-scheduling core of `src/app.py`
(`calculate_interest` and its nested helpers `get_interval` and
`next_interest_date`), together with theorems settling the spec claims.

Modelling notes:
* Python `datetime`/pandas `Timestamp` calendar dates become the `Date`
  structure (year, month, day as integers); `dateutil.relativedelta`
  month addition (with day-of-month clamped to the last valid day of the
  target month) becomes `addMonths`.
* pandas missing values (`NaN`/`NaT`/`None`) become `Option.none`.
* Python `//` is floor division, embedded as `Int.fdiv`.
* Python `//` applied with a zero divisor raises `ZeroDivisionError`;
  `next_interest_date` therefore returns an `Option SchedResult`, with
  `none` marking that crash and `some` the value the Python function
  returns.
* Numeric principal / rate values become `ℚ`; month counts become `ℤ`.
-/

namespace PySaves

/-- A naive calendar date (no time-of-day, no timezone), as used by the
Python code via `datetime` / pandas timestamps. -/
structure Date where
  year : Int
  month : Int
  day : Int
deriving DecidableEq, Repr

/-- Gregorian leap-year rule, as implemented by Python's `calendar`
module which `relativedelta` consults when clamping a day-of-month. -/
def isLeap (y : Int) : Bool :=
  y % 4 == 0 && (y % 100 != 0 || y % 400 == 0)

/-- Number of days in a month of a given year. -/
def daysInMonth (y m : Int) : Int :=
  if m = 2 then (if isLeap y then 29 else 28)
  else if m = 4 ∨ m = 6 ∨ m = 9 ∨ m = 11 then 30
  else 31

/-- `d + relativedelta(months=n)`: calendar-correct month addition; the
day-of-month is clamped to the last valid day of the target month. -/
def addMonths (d : Date) (n : Int) : Date :=
  let total := d.year * 12 + (d.month - 1) + n
  let y := Int.fdiv total 12
  let m := Int.fmod total 12 + 1
  ⟨y, m, min d.day (daysInMonth y m)⟩

/-- Python datetime comparison `a < b`: lexicographic on
(year, month, day). -/
def dateLt (a b : Date) : Bool :=
  decide (a.year < b.year ∨ (a.year = b.year ∧
    (a.month < b.month ∨ (a.month = b.month ∧ a.day < b.day))))

/-- Two-digit zero padding, as in `strftime` `%m` / `%d`. -/
def pad2 (n : Int) : String :=
  if n < 10 then "0" ++ toString n else toString n

/-- Four-digit zero padding, as in `strftime` `%Y`. -/
def pad4 (n : Int) : String :=
  if n < 10 then "000" ++ toString n
  else if n < 100 then "00" ++ toString n
  else if n < 1000 then "0" ++ toString n
  else toString n

/-- `next_date.strftime('%Y-%m-%d')`. -/
def toISO (d : Date) : String :=
  pad4 d.year ++ "-" ++ pad2 d.month ++ "-" ++ pad2 d.day

/-- Python `str.strip()`: remove leading and trailing whitespace. -/
def pyStrip (s : String) : String :=
  ⟨((s.data.dropWhile Char.isWhitespace).reverse.dropWhile
      Char.isWhitespace).reverse⟩

/-- Result of the Python `next_interest_date` helper: the string
`"Invalid Data"`, the string `"Term Ended"`, or a formatted date. -/
inductive SchedResult where
  | invalidData
  | termEnded
  | date (s : String)
deriving DecidableEq, Repr

/-- `get_interval` (src/app.py lines 60-69): months between interest
payments based on the `Frequency` label. The Python code takes
`str(row.get('Frequency', '')).strip()`; a missing cell stringifies to
`"nan"`/`"None"`, which matches none of the known labels, so an absent
frequency is embedded as `none` and falls through to the final case. -/
def get_interval (frequency : Option String) (termMonths : Option Int) :
    Option Int :=
  match frequency with
  | none => none
  | some s =>
    let f := pyStrip s
    if f = "Monthly" then some 1
    else if f = "Quarterly" then some 3
    else if f = "End of Term" then termMonths
    else none

/-- `(today.year - start_date.year) * 12 + (today.month - start_date.month)`
(src/app.py line 76). -/
def monthsSinceStart (today start : Date) : Int :=
  (today.year - start.year) * 12 + (today.month - start.month)

/-- `((months_since_start // interval_months) + 1) * interval_months`
(src/app.py line 77); Python `//` is floor division (`Int.fdiv`). -/
def nextMultiple (today start : Date) (intervalMonths : Int) : Int :=
  (Int.fdiv (monthsSinceStart today start) intervalMonths + 1) * intervalMonths

/-- `next_interest_date` (src/app.py lines 71-83). Returns `none` when
the Python function raises `ZeroDivisionError` (floor division by a zero
interval, which the `is None` guard does not catch). -/
def next_interest_date (today : Date) (startDate : Option Date)
    (termMonths intervalMonths : Option Int) : Option SchedResult :=
  match intervalMonths, startDate, termMonths with
  | none, _, _ => some .invalidData
  | some _, none, _ => some .invalidData
  | some _, some _, none => some .invalidData
  | some i, some sd, some t =>
    if i = 0 then none
    else
      let nextDate := addMonths sd (nextMultiple today sd i)
      let endDate := addMonths sd t
      if dateLt endDate nextDate then some .termEnded
      else some (.date (toISO nextDate))

/-- The `Interest Amount` lambda (src/app.py lines 98-105): 0 if the
schedule is terminal/invalid or principal/rate is missing, otherwise
`principal * (rate / 100) * (interval / 12)`. An absent interval in the
formula branch would make pandas propagate `NaN` (or raise), embedded as
`none`; it is unreachable in the pipeline. -/
def interest_amount_of (next : SchedResult) (principal rate : Option ℚ)
    (intervalMonths : Option Int) : Option ℚ :=
  if next = SchedResult.termEnded ∨ next = SchedResult.invalidData ∨
      principal = none ∨ rate = none then some 0
  else
    match principal, rate, intervalMonths with
    | some p, some r, some i => some (p * (r / 100) * ((i : ℚ) / 12))
    | _, _, _ => none

/-- One normalized input row: the typed columns produced by
`get_google_sheet_data` (src/app.py lines 39-46); unparseable or missing
cells are `none`. -/
structure Row where
  startDate : Option Date
  termMonths : Option Int
  rate : Option ℚ
  principal : Option ℚ
  frequency : Option String
deriving DecidableEq, Repr

/-- The derived columns `Interval (months)`, `Next Interest Date`,
`Interest Amount` computed by `calculate_interest` for one row. -/
structure ComputedRow where
  interval : Option Int
  nextDate : Option SchedResult
  interest : Option ℚ
deriving DecidableEq, Repr

/-- The per-row pipeline of `calculate_interest` (src/app.py lines
86-105): interval resolution, scheduling, then the interest amount. If
the scheduler crashed (`nextDate = none`), the interest column is never
computed (`none`). -/
def processRow (today : Date) (row : Row) : ComputedRow :=
  let interval := get_interval row.frequency row.termMonths
  let nextDate := next_interest_date today row.startDate row.termMonths interval
  let interest :=
    match nextDate with
    | none => none
    | some n => interest_amount_of n row.principal row.rate interval
  ⟨interval, nextDate, interest⟩

example : addMonths ⟨2023, 1, 15⟩ 15 = ⟨2024, 4, 15⟩ := by decide
example : addMonths ⟨2023, 1, 31⟩ 1 = ⟨2023, 2, 28⟩ := by decide
example : addMonths ⟨2024, 1, 31⟩ 1 = ⟨2024, 2, 29⟩ := by decide
example : addMonths ⟨2023, 3, 15⟩ (-14) = ⟨2022, 1, 15⟩ := by decide
example : toISO ⟨2023, 6, 15⟩ = "2023-06-15" := by decide
example : get_interval (some " Monthly ") none = some 1 := by decide
example : get_interval (some "monthly") (some 5) = none := by decide

/-! ### Helper lemmas about the calendar arithmetic -/

/-- The year/month of `addMonths d n` encode exactly the month total
`d.year * 12 + (d.month - 1) + n`, and the resulting month lies in
`[1, 12]`. -/
lemma addMonths_ym (d : Date) (n : Int) :
    (addMonths d n).year * 12 + ((addMonths d n).month - 1) =
      d.year * 12 + (d.month - 1) + n ∧
    1 ≤ (addMonths d n).month ∧ (addMonths d n).month ≤ 12 := by
  have hy : (addMonths d n).year =
      Int.fdiv (d.year * 12 + (d.month - 1) + n) 12 := rfl
  have hm : (addMonths d n).month =
      Int.fmod (d.year * 12 + (d.month - 1) + n) 12 + 1 := rfl
  rw [hy, hm]
  have h1 := Int.fdiv_add_fmod (d.year * 12 + (d.month - 1) + n) 12
  rw [Int.fmod_eq_emod _ (by norm_num)] at h1 ⊢
  have h3 := Int.emod_nonneg (d.year * 12 + (d.month - 1) + n)
    (b := 12) (by norm_num)
  have h4 := Int.emod_lt_of_pos (d.year * 12 + (d.month - 1) + n)
    (b := 12) (by norm_num)
  omega

/-- Month addition shifts the month-offset from the base date by exactly
the added count: the day-of-month clamp never affects the year/month. -/
lemma monthsSinceStart_addMonths (sd : Date) (n : Int) :
    monthsSinceStart (addMonths sd n) sd = n := by
  have h := (addMonths_ym sd n).1
  unfold monthsSinceStart
  omega

/-- The next multiple of a positive interval is strictly greater than
the elapsed month count (Python floor division). -/
lemma lt_nextMultiple (today sd : Date) (i : Int) (hi : 0 < i) :
    monthsSinceStart today sd < nextMultiple today sd i := by
  unfold nextMultiple
  rw [Int.fdiv_eq_ediv _ hi.le]
  exact Int.lt_ediv_add_one_mul_self _ hi

/-- When `now` is more than one interval before the start date, floor
division picks a negative multiple of the interval. -/
lemma nextMultiple_le_neg (today sd : Date) (i : Int) (hi : 0 < i)
    (h : monthsSinceStart today sd < -i) :
    nextMultiple today sd i ≤ -i := by
  unfold nextMultiple
  rw [Int.fdiv_eq_ediv _ hi.le]
  have h2 : monthsSinceStart today sd / i ≤ (-i - 1) / i :=
    Int.ediv_le_ediv hi (by omega)
  have h3 : (-i - 1) / i = -2 := by
    have he : (-i - 1) = (i - 1) + (-2) * i := by ring
    rw [he, Int.add_mul_ediv_right _ _ hi.ne',
      Int.ediv_eq_zero_of_lt (by omega) (by omega)]
    norm_num
  have h4 : monthsSinceStart today sd / i + 1 ≤ -1 := by omega
  calc (monthsSinceStart today sd / i + 1) * i
      ≤ (-1) * i := mul_le_mul_of_nonneg_right h4 hi.le
    _ = -i := by ring

/-- If both months are in range and the month totals are strictly
ordered, the dates compare strictly (whatever the days are). -/
lemma dateLt_true_of_ym_lt (a b : Date)
    (ha1 : 1 ≤ a.month) (ha2 : a.month ≤ 12)
    (hb1 : 1 ≤ b.month) (hb2 : b.month ≤ 12)
    (h : a.year * 12 + (a.month - 1) < b.year * 12 + (b.month - 1)) :
    dateLt a b = true := by
  simp only [dateLt, decide_eq_true_eq]
  omega

/-- If both months are in range and the first month total is strictly
larger, the first date is not less than the second. -/
lemma dateLt_false_of_ym_lt (a b : Date)
    (ha1 : 1 ≤ a.month) (ha2 : a.month ≤ 12)
    (hb1 : 1 ≤ b.month) (hb2 : b.month ≤ 12)
    (h : b.year * 12 + (b.month - 1) < a.year * 12 + (a.month - 1)) :
    dateLt a b = false := by
  simp only [dateLt, decide_eq_false_iff_not]
  omega

/-! ### Claim theorems -/

/-- C1: for every row in which any of startDate, termMonths, or the
resolved intervalMonths is absent, the scheduler returns Invalid Data
and the interest amount is 0. -/
theorem C1_missing_inputs_invalid (today : Date) (row : Row)
    (h : row.startDate = none ∨ row.termMonths = none ∨
      get_interval row.frequency row.termMonths = none) :
    (processRow today row).nextDate = some SchedResult.invalidData ∧
    (processRow today row).interest = some 0 := by
  have hnext : (processRow today row).nextDate =
      next_interest_date today row.startDate row.termMonths
        (get_interval row.frequency row.termMonths) := rfl
  have hND : next_interest_date today row.startDate row.termMonths
      (get_interval row.frequency row.termMonths) =
      some SchedResult.invalidData := by
    rcases h with h | h | h
    · rw [h]
      cases get_interval row.frequency row.termMonths <;>
        simp [next_interest_date]
    · rw [h]
      cases hI : get_interval row.frequency none <;>
        cases hS : row.startDate <;> simp [next_interest_date]
    · rw [h]
      simp [next_interest_date]
  refine ⟨by rw [hnext, hND], ?_⟩
  have hint : (processRow today row).interest =
      (match next_interest_date today row.startDate row.termMonths
          (get_interval row.frequency row.termMonths) with
        | none => none
        | some n => interest_amount_of n row.principal row.rate
            (get_interval row.frequency row.termMonths)) := rfl
  rw [hint, hND]
  simp [interest_amount_of]

theorem C1_missing_inputs_invalid_witness :
    (processRow ⟨2024, 3, 10⟩
      ⟨none, some 12, some 6, some 10000, some "Monthly"⟩).nextDate =
      some SchedResult.invalidData ∧
    (processRow ⟨2024, 3, 10⟩
      ⟨none, some 12, some 6, some 10000, some "Monthly"⟩).interest =
      some 0 :=
  C1_missing_inputs_invalid ⟨2024, 3, 10⟩
    ⟨none, some 12, some 6, some 10000, some "Monthly"⟩ (Or.inl rfl)

/-- C2: contrary to the claim, a zero interval (from "End of Term" with
termMonths = 0) is not caught by the `is None` guard: the floor division
`months_since_start // interval_months` raises `ZeroDivisionError`
(modelled as `none`), and a negative interval produces a computed result
("Term Ended" here), never "Invalid Data". -/
theorem C2_zero_interval_divides_by_zero :
    (processRow ⟨2024, 3, 10⟩
      ⟨some ⟨2023, 1, 15⟩, some 0, some 6, some 10000,
        some "End of Term"⟩).nextDate = none ∧
    (processRow ⟨2024, 3, 10⟩
      ⟨some ⟨2023, 1, 15⟩, some (-3), some 6, some 10000,
        some "End of Term"⟩).nextDate = some SchedResult.termEnded := by
  decide

/-- C3: the interval resolver maps "Monthly" to 1, "Quarterly" to 3,
"End of Term" to termMonths (absent when termMonths is absent), and any
other label — including an absent one — to absent. -/
theorem C3_frequency_mapping (t : Option Int) (s : String)
    (h1 : pyStrip s ≠ "Monthly") (h2 : pyStrip s ≠ "Quarterly")
    (h3 : pyStrip s ≠ "End of Term") :
    get_interval (some "Monthly") t = some 1 ∧
    get_interval (some "Quarterly") t = some 3 ∧
    get_interval (some "End of Term") t = t ∧
    get_interval none t = none ∧
    get_interval (some s) t = none := by
  refine ⟨?_, ?_, ?_, rfl, ?_⟩
  · simp only [get_interval]
    rw [if_pos (by decide)]
  · simp only [get_interval]
    rw [if_neg (by decide), if_pos (by decide)]
  · simp only [get_interval]
    rw [if_neg (by decide), if_neg (by decide), if_pos (by decide)]
  · simp only [get_interval]
    rw [if_neg h1, if_neg h2, if_neg h3]

theorem C3_frequency_mapping_witness :
    get_interval (some "Monthly") (some 7) = some 1 ∧
    get_interval (some "Quarterly") (some 7) = some 3 ∧
    get_interval (some "End of Term") (some 7) = some 7 ∧
    get_interval none (some 7) = none ∧
    get_interval (some "Weekly") (some 7) = none :=
  C3_frequency_mapping (some 7) "Weekly" (by decide) (by decide)
    (by decide)

/-- C4: with all inputs present and a positive interval, the candidate
date's month-offset from the start date is strictly greater than
`monthsSinceStart`, and any concrete date the scheduler returns is
exactly that candidate date. -/
theorem C4_candidate_strictly_future (today sd : Date) (t i : Int)
    (hi : 0 < i) :
    monthsSinceStart today sd <
      monthsSinceStart (addMonths sd (nextMultiple today sd i)) sd ∧
    ∀ s, next_interest_date today (some sd) (some t) (some i) =
        some (SchedResult.date s) →
      s = toISO (addMonths sd (nextMultiple today sd i)) := by
  constructor
  · rw [monthsSinceStart_addMonths]
    exact lt_nextMultiple today sd i hi
  · intro s h
    simp only [next_interest_date] at h
    rw [if_neg hi.ne'] at h
    split at h
    · simp at h
    · simp only [Option.some.injEq, SchedResult.date.injEq] at h
      exact h.symm

theorem C4_candidate_strictly_future_witness :
    monthsSinceStart ⟨2023, 5, 10⟩ ⟨2023, 1, 15⟩ <
      monthsSinceStart
        (addMonths ⟨2023, 1, 15⟩
          (nextMultiple ⟨2023, 5, 10⟩ ⟨2023, 1, 15⟩ 1)) ⟨2023, 1, 15⟩ ∧
    "2023-06-15" = toISO (addMonths ⟨2023, 1, 15⟩
      (nextMultiple ⟨2023, 5, 10⟩ ⟨2023, 1, 15⟩ 1)) :=
  ⟨(C4_candidate_strictly_future ⟨2023, 5, 10⟩ ⟨2023, 1, 15⟩ 12 1
      (by decide)).1,
   (C4_candidate_strictly_future ⟨2023, 5, 10⟩ ⟨2023, 1, 15⟩ 12 1
      (by decide)).2 "2023-06-15" (by decide)⟩

/-- C5: with all inputs present and a nonzero interval, the scheduler
returns Term Ended exactly when the candidate date is strictly after the
end date (in which case the interest amount is 0 whatever principal and
rate are), and otherwise returns the candidate date itself as an ISO
string — in particular a candidate equal to the end date is returned. -/
theorem C5_term_end_boundary (today sd : Date) (t i : Int) (hi : i ≠ 0)
    (p r : Option ℚ) :
    (dateLt (addMonths sd t) (addMonths sd (nextMultiple today sd i)) =
        true →
      next_interest_date today (some sd) (some t) (some i) =
        some SchedResult.termEnded ∧
      interest_amount_of SchedResult.termEnded p r (some i) = some 0) ∧
    (dateLt (addMonths sd t) (addMonths sd (nextMultiple today sd i)) =
        false →
      next_interest_date today (some sd) (some t) (some i) =
        some (SchedResult.date
          (toISO (addMonths sd (nextMultiple today sd i))))) := by
  constructor
  · intro h
    constructor
    · simp only [next_interest_date]
      rw [if_neg hi, if_pos h]
    · simp [interest_amount_of]
  · intro h
    simp only [next_interest_date]
    rw [if_neg hi, if_neg (by simp [h])]

theorem C5_term_end_boundary_witness :
    next_interest_date ⟨2024, 3, 10⟩ (some ⟨2023, 1, 15⟩) (some 12)
      (some 1) = some SchedResult.termEnded ∧
    interest_amount_of SchedResult.termEnded (some 10000) (some 6)
      (some 1) = some 0 :=
  (C5_term_end_boundary ⟨2024, 3, 10⟩ ⟨2023, 1, 15⟩ 12 1 (by decide)
    (some 10000) (some 6)).1 (by decide)

/-- C6: the spec's worked scenario row (start 2023-01-15, term 12,
"Monthly", principal 10000, rate 6) evaluates to Term Ended with 0
interest at now = 2024-03-10, and to "2023-06-15" with interest 50 at
now = 2023-05-10. -/
theorem C6_worked_scenarios :
    processRow ⟨2024, 3, 10⟩
      ⟨some ⟨2023, 1, 15⟩, some 12, some 6, some 10000, some "Monthly"⟩ =
      ⟨some 1, some SchedResult.termEnded, some 0⟩ ∧
    processRow ⟨2023, 5, 10⟩
      ⟨some ⟨2023, 1, 15⟩, some 12, some 6, some 10000, some "Monthly"⟩ =
      ⟨some 1, some (SchedResult.date "2023-06-15"), some 50⟩ := by
  constructor
  · decide
  · have hrow :
        processRow ⟨2023, 5, 10⟩
          ⟨some ⟨2023, 1, 15⟩, some 12, some 6, some 10000,
            some "Monthly"⟩ =
        ⟨some 1, some (SchedResult.date "2023-06-15"),
          interest_amount_of (SchedResult.date "2023-06-15")
            (some 10000) (some 6) (some 1)⟩ := rfl
    rw [hrow]
    have hint : interest_amount_of (SchedResult.date "2023-06-15")
        (some 10000) (some 6) (some 1) = some 50 := by
      simp only [interest_amount_of]
      rw [if_neg (by simp)]
      norm_num
    rw [hint]

/-- C7 counterexample: the claim says the derived interest amount is
non-negative for every row, but a row with a negative principal (which
the normalizer accepts) produces a negative interest amount. -/
theorem C7_negative_interest_counterexample :
    (processRow ⟨2023, 5, 10⟩
      ⟨some ⟨2023, 1, 15⟩, some 12, some 6, some (-100),
        some "Monthly"⟩).interest = some (-(1 / 2)) ∧
    ¬ (0 : ℚ) ≤ -(1 / 2) := by
  constructor
  · have hrow : (processRow ⟨2023, 5, 10⟩
        ⟨some ⟨2023, 1, 15⟩, some 12, some 6, some (-100),
          some "Monthly"⟩).interest =
        interest_amount_of (SchedResult.date "2023-06-15")
          (some (-100)) (some 6) (some 1) := rfl
    rw [hrow]
    simp only [interest_amount_of]
    rw [if_neg (by simp)]
    norm_num
  · norm_num

/-- C7 amended: the interest amount is 0 for terminal/invalid schedules
or a missing principal/rate, and otherwise equals
`principal * (rate / 100) * (intervalMonths / 12)`; that value is
non-negative whenever principal, rate and interval are all non-negative
(the code does not guarantee non-negativity for negative inputs). -/
theorem C7_interest_zero_or_formula (n : SchedResult) (p r : ℚ)
    (i : Int) (hp : 0 ≤ p) (hr : 0 ≤ r) (hi : 0 ≤ i) (s : String) :
    interest_amount_of SchedResult.termEnded (some p) (some r)
      (some i) = some 0 ∧
    interest_amount_of SchedResult.invalidData (some p) (some r)
      (some i) = some 0 ∧
    interest_amount_of n none (some r) (some i) = some 0 ∧
    interest_amount_of n (some p) none (some i) = some 0 ∧
    interest_amount_of (SchedResult.date s) (some p) (some r)
      (some i) = some (p * (r / 100) * ((i : ℚ) / 12)) ∧
    0 ≤ p * (r / 100) * ((i : ℚ) / 12) := by
  refine ⟨by simp [interest_amount_of], by simp [interest_amount_of],
    by simp [interest_amount_of], by simp [interest_amount_of], ?_, ?_⟩
  · simp only [interest_amount_of]
    rw [if_neg (by simp)]
  · exact mul_nonneg (mul_nonneg hp (div_nonneg hr (by norm_num)))
      (div_nonneg (by exact_mod_cast hi) (by norm_num))

theorem C7_interest_zero_or_formula_witness :
    interest_amount_of SchedResult.termEnded (some 10000) (some 6)
      (some 1) = some 0 ∧
    interest_amount_of SchedResult.invalidData (some 10000) (some 6)
      (some 1) = some 0 ∧
    interest_amount_of SchedResult.termEnded none (some 6) (some 1) =
      some 0 ∧
    interest_amount_of SchedResult.termEnded (some 10000) none
      (some 1) = some 0 ∧
    interest_amount_of (SchedResult.date "2023-06-15") (some 10000)
      (some 6) (some 1) =
      some (10000 * ((6 : ℚ) / 100) * (((1 : Int) : ℚ) / 12)) ∧
    (0 : ℚ) ≤ 10000 * ((6 : ℚ) / 100) * (((1 : Int) : ℚ) / 12) :=
  C7_interest_zero_or_formula SchedResult.termEnded 10000 6 1
    (by norm_num) (by norm_num) (by norm_num) "2023-06-15"

/-- C8: whenever the scheduler produced a concrete date for a row, the
resolved interval is present, so the interest formula never operates on
an absent interval (and the interest column is always computed). -/
theorem C8_concrete_date_has_interval (today : Date) (row : Row)
    (s : String)
    (h : (processRow today row).nextDate = some (SchedResult.date s)) :
    (processRow today row).interval ≠ none ∧
    (processRow today row).interest ≠ none := by
  have h2 : (processRow today row).nextDate =
      next_interest_date today row.startDate row.termMonths
        (get_interval row.frequency row.termMonths) := rfl
  rw [h2] at h
  have hIneq : get_interval row.frequency row.termMonths ≠ none := by
    intro hI
    rw [hI] at h
    simp [next_interest_date] at h
  refine ⟨hIneq, ?_⟩
  have hint : (processRow today row).interest =
      (match next_interest_date today row.startDate row.termMonths
          (get_interval row.frequency row.termMonths) with
        | none => none
        | some n => interest_amount_of n row.principal row.rate
            (get_interval row.frequency row.termMonths)) := rfl
  rw [hint, h]
  obtain ⟨iv, hiv⟩ : ∃ iv,
      get_interval row.frequency row.termMonths = some iv := by
    cases hI : get_interval row.frequency row.termMonths
    · exact absurd hI hIneq
    · exact ⟨_, rfl⟩
  rw [hiv]
  cases hp : row.principal <;> cases hr : row.rate <;>
    simp [interest_amount_of]

theorem C8_concrete_date_has_interval_witness :
    (processRow ⟨2023, 5, 10⟩
      ⟨some ⟨2023, 1, 15⟩, some 12, some 6, some 10000,
        some "Monthly"⟩).interval ≠ none ∧
    (processRow ⟨2023, 5, 10⟩
      ⟨some ⟨2023, 1, 15⟩, some 12, some 6, some 10000,
        some "Monthly"⟩).interest ≠ none :=
  C8_concrete_date_has_interval ⟨2023, 5, 10⟩
    ⟨some ⟨2023, 1, 15⟩, some 12, some 6, some 10000, some "Monthly"⟩
    "2023-06-15" (by decide)

/-- C9: frequency matching is exact and case-sensitive — any label
whose stripped form differs from the three recognized strings (for
instance any letter-case variant such as "monthly") resolves to an
absent interval, and the row's next payment date is Invalid Data. -/
theorem C9_label_matching_case_sensitive (today : Date) (row : Row)
    (s : String) (hf : row.frequency = some s)
    (h1 : pyStrip s ≠ "Monthly") (h2 : pyStrip s ≠ "Quarterly")
    (h3 : pyStrip s ≠ "End of Term") :
    get_interval row.frequency row.termMonths = none ∧
    (processRow today row).nextDate = some SchedResult.invalidData := by
  have hg : get_interval row.frequency row.termMonths = none := by
    rw [hf]
    simp only [get_interval]
    rw [if_neg h1, if_neg h2, if_neg h3]
  refine ⟨hg, ?_⟩
  have h4 : (processRow today row).nextDate =
      next_interest_date today row.startDate row.termMonths
        (get_interval row.frequency row.termMonths) := rfl
  rw [h4, hg]
  simp [next_interest_date]

theorem C9_label_matching_case_sensitive_witness :
    get_interval (some "monthly") (some 12) = none ∧
    (processRow ⟨2023, 5, 10⟩
      ⟨some ⟨2023, 1, 15⟩, some 12, some 6, some 10000,
        some "monthly"⟩).nextDate = some SchedResult.invalidData :=
  C9_label_matching_case_sensitive ⟨2023, 5, 10⟩
    ⟨some ⟨2023, 1, 15⟩, some 12, some 6, some 10000, some "monthly"⟩
    "monthly" rfl (by decide) (by decide) (by decide)

/-- C10: when now is more than one interval before the start date (all
inputs present, positive interval, non-negative term, valid start
month), the scheduler returns a concrete date — the candidate at a
negative multiple of the interval — which lies strictly before the
start date. -/
theorem C10_far_future_start_gives_past_date (today sd : Date)
    (t i : Int) (hm1 : 1 ≤ sd.month) (hm2 : sd.month ≤ 12)
    (hi : 0 < i) (ht : 0 ≤ t)
    (hfar : monthsSinceStart today sd < -i) :
    next_interest_date today (some sd) (some t) (some i) =
      some (SchedResult.date
        (toISO (addMonths sd (nextMultiple today sd i)))) ∧
    dateLt (addMonths sd (nextMultiple today sd i)) sd = true := by
  have hnm : nextMultiple today sd i ≤ -i :=
    nextMultiple_le_neg today sd i hi hfar
  have hc := addMonths_ym sd (nextMultiple today sd i)
  have he := addMonths_ym sd t
  have hend : dateLt (addMonths sd t)
      (addMonths sd (nextMultiple today sd i)) = false :=
    dateLt_false_of_ym_lt _ _ he.2.1 he.2.2 hc.2.1 hc.2.2 (by omega)
  constructor
  · simp only [next_interest_date]
    rw [if_neg hi.ne', if_neg (by simp [hend])]
  · exact dateLt_true_of_ym_lt _ _ hc.2.1 hc.2.2 hm1 hm2 (by omega)

theorem C10_far_future_start_gives_past_date_witness :
    next_interest_date ⟨2020, 1, 1⟩ (some ⟨2023, 1, 15⟩) (some 24)
      (some 12) =
      some (SchedResult.date (toISO (addMonths ⟨2023, 1, 15⟩
        (nextMultiple ⟨2020, 1, 1⟩ ⟨2023, 1, 15⟩ 12)))) ∧
    dateLt (addMonths ⟨2023, 1, 15⟩
      (nextMultiple ⟨2020, 1, 1⟩ ⟨2023, 1, 15⟩ 12)) ⟨2023, 1, 15⟩ =
      true :=
  C10_far_future_start_gives_past_date ⟨2020, 1, 1⟩ ⟨2023, 1, 15⟩ 24 12
    (by decide) (by decide) (by decide) (by decide) (by decide)

end PySaves
